import Mathlib

/-!
Shallow embedding of the server lifecycle and request pipeline of
xmtp-node-go: `pkg/tracing/tracing.go` and `pkg/api/server.go`
(the server lifecycle, the telemetry interceptor and the CORS wrapper).

Go control flow is embedded as follows: a Go function body that can
`panic` is a value of `GoResult`; sequencing after a call that panicked
does not run (the panic propagates); `defer`/`recover` blocks are
translated by case analysis on the panic value, mirroring the source's
`switch r := r.(type)` shape.  Observable effects (span Finish calls,
telemetry record invocations, listener binds/closes, task spawns) are
returned as explicit event lists.
-/

namespace Xmtp

/-- A Go `error` value, kept abstract up to its message. -/
structure GoError where
  msg : String
deriving DecidableEq, Repr

/-- A non-nil value passed to Go `panic`: either an `error` value or a
value of some other dynamic type (abstracted as a string). -/
inductive PanicValue where
  | err (e : GoError)
  | other (v : String)
deriving DecidableEq, Repr

/-- Outcome of running a Go function body: a normal return, or a panic
escaping the body. -/
inductive GoResult (α : Type) where
  | ok (a : α)
  | panicked (r : PanicValue)
deriving DecidableEq, Repr

/-- One `span.Finish` call; `tag = some e` stands for
`span.Finish(tracer.WithError(e))`, `tag = none` for a plain `span.Finish()`. -/
structure SpanFinish where
  tag : Option GoError
deriving DecidableEq, Repr

/-- tracing.Do (pkg/tracing/tracing.go): starts a span, runs `action`,
and in a deferred block calls `recover()`, finishes the span tagged with
the recovered value when that value is an `error` (untagged otherwise),
and re-panics when the recovered value is non-nil.  The first component
is the list of Finish calls made on the span started by this invocation;
the second is what `Do` itself does for its caller. -/
def Do (spanName : String) (action : GoResult Unit) :
    List SpanFinish × GoResult Unit :=
  let _ := spanName
  -- r := recover(): nil when action returned normally
  let r : Option PanicValue :=
    match action with
    | .ok _ => none
    | .panicked v => some v
  -- switch r.(type) { case error: Finish(WithError(r)); default: Finish() }
  let fin : SpanFinish :=
    match r with
    | some (.err e) => ⟨some e⟩
    | _ => ⟨none⟩
  -- if r != nil { panic(r) }
  let result : GoResult Unit :=
    match r with
    | some v => .panicked v
    | none => .ok ()
  ([fin], result)

namespace TelemetryInterceptor

/-- One invocation of `TelemetryInterceptor.record`, identified by its
`fullMethod` and `err` arguments (the context argument is elided). -/
structure RecordCall where
  fullMethod : List Char
  err : Option GoError
deriving DecidableEq, Repr

/-- TelemetryInterceptor.Unary (pkg/api/server.go):
`res, err := handler(ctx, req); ti.record(ctx, info.FullMethod, err); return res, err`.
Given the handler's outcome (a response value paired with a possibly-nil
error, or a panic), yields the list of record invocations made and the
interceptor's own outcome.  `record` runs sequentially after the handler,
so a panicking handler propagates before any record invocation. -/
def Unary (handler : GoResult (String × Option GoError))
    (fullMethod : List Char) :
    List RecordCall × GoResult (String × Option GoError) :=
  match handler with
  | .ok (res, err) => ([⟨fullMethod, err⟩], .ok (res, err))
  | .panicked r => ([], .panicked r)

/-- TelemetryInterceptor.Stream (pkg/api/server.go):
`res := handler(srv, stream); ti.record(stream.Context(), info.FullMethod, nil); return res`.
The error argument of the record invocation is the literal `nil`,
independent of the handler's returned error. -/
def Stream (handler : GoResult (Option GoError)) (fullMethod : List Char) :
    List RecordCall × GoResult (Option GoError) :=
  match handler with
  | .ok res => ([⟨fullMethod, none⟩], .ok res)
  | .panicked r => ([], .panicked r)

end TelemetryInterceptor

/-- Go `strings.TrimPrefix(s, "/")`: removes one leading slash when present. -/
def trimPrefixSlash : List Char → List Char
  | [] => []
  | c :: rest => if c = '/' then rest else c :: rest

/-- Go `strings.Index(s, "/")` specialised to the single-character
separator: index of the first slash, `none` standing for Go's `-1`. -/
def indexSlash : List Char → Option Nat
  | [] => none
  | c :: rest => if c = '/' then some 0 else (indexSlash rest).map (· + 1)

/-- splitMethodName (pkg/api/server.go): trims one leading slash, then
splits at the first remaining slash; with no slash present it returns the
"unknown" sentinel for both components. -/
def splitMethodName (fullMethodName : List Char) : List Char × List Char :=
  let s := trimPrefixSlash fullMethodName
  match indexSlash s with
  | some i => (s.take i, s.drop (i + 1))
  | none => (String.toList "unknown", String.toList "unknown")

theorem indexSlash_eq_none_iff (s : List Char) :
    indexSlash s = none ↔ '/' ∉ s := by
  induction s with
  | nil => simp [indexSlash]
  | cons c rest ih =>
    by_cases hc : c = '/'
    · simp [indexSlash, hc]
    · simp [indexSlash, hc, ih, Option.map_eq_none']
      exact fun _ h => hc h.symm

theorem indexSlash_eq_some_split (s : List Char) (i : Nat)
    (h : indexSlash s = some i) :
    s.take i = s.takeWhile (fun c => c != '/') ∧
    s.drop (i + 1) = (s.dropWhile (fun c => c != '/')).tail := by
  induction s generalizing i with
  | nil => simp [indexSlash] at h
  | cons c rest ih =>
    by_cases hc : c = '/'
    · subst hc
      simp [indexSlash] at h
      subst h
      simp [List.takeWhile_cons, List.dropWhile_cons]
    · simp [indexSlash, hc] at h
      obtain ⟨j, hj, rfl⟩ := h
      obtain ⟨h1, h2⟩ := ih j hj
      have hbne : (c != '/') = true := by simp [bne_iff_ne, hc]
      simp [List.takeWhile_cons, List.dropWhile_cons, hbne, h1, h2]

/-- The code points trimmed by Go `strings.TrimSpace`
(`unicode.IsSpace`): ASCII whitespace, the Latin-1 NEL and NBSP, and the
Unicode White_Space code points. -/
def isSpace (c : Char) : Bool :=
  [' ', '\t', '\n', Char.ofNat 0x0B, Char.ofNat 0x0C, '\r',
   Char.ofNat 0x85, Char.ofNat 0xA0, Char.ofNat 0x1680,
   Char.ofNat 0x2000, Char.ofNat 0x2001, Char.ofNat 0x2002,
   Char.ofNat 0x2003, Char.ofNat 0x2004, Char.ofNat 0x2005,
   Char.ofNat 0x2006, Char.ofNat 0x2007, Char.ofNat 0x2008,
   Char.ofNat 0x2009, Char.ofNat 0x200A, Char.ofNat 0x2028,
   Char.ofNat 0x2029, Char.ofNat 0x202F, Char.ofNat 0x205F,
   Char.ofNat 0x3000].contains c

/-- Go `strings.TrimSpace`: drops leading and trailing whitespace. -/
def trimSpace (s : List Char) : List Char :=
  ((s.dropWhile isSpace).reverse.dropWhile isSpace).reverse

/-- The structured fields assembled by `TelemetryInterceptor.record`
(pkg/api/server.go) that the claims are about: the service and method
fields from `splitMethodName`, the optional `client_ip` field from the
`x-forwarded-for` metadata values (first value split on commas, first
entry, whitespace trimmed; no field when the metadata key is absent),
whether an error field is attached, and the chosen log level
(`Info` when the error is non-nil, `Debug` otherwise). -/
structure RecordedFields where
  service : List Char
  method : List Char
  client_ip : Option (List Char)
  errorAttached : Bool
  logLevelInfo : Bool
deriving DecidableEq, Repr

/-- TelemetryInterceptor.record (pkg/api/server.go), as the fields it
derives from its arguments; `xForwardedFor` is `md.Get("x-forwarded-for")`. -/
def record (fullMethod : List Char) (xForwardedFor : List (List Char))
    (err : Option GoError) : RecordedFields :=
  { service := (splitMethodName fullMethod).1
    method := (splitMethodName fullMethod).2
    client_ip :=
      match xForwardedFor with
      | [] => none
      | v :: _ => some (trimSpace (v.takeWhile (fun c => c != ',')))
    errorAttached := err.isSome
    logLevelInfo := err.isSome }

/-- The cross-cutting interceptors appended to the `unary`/`stream`
slices in `startGRPC` (pkg/api/server.go). -/
inductive Interceptor where
  | prometheus
  | telemetry
  | walletAuthorizer
deriving DecidableEq, Repr

/-- How a background computation is started in the source: through
`tracing.GoPanicWrap(s.ctx, &s.wg, name, body)`, or with a bare `go`
statement. -/
inductive SpawnMethod where
  | goPanicWrap
  | plainGo
deriving DecidableEq, Repr

/-- Modelled from the spec: `GoPanicWrap` (pkg/tracing; its defining file
is not among the copied sources, only its call sites are) registers the
task with the server's wait-group joiner before starting it on its own
goroutine; a bare `go` statement performs no such registration. -/
def registersWithJoiner : SpawnMethod → Bool
  | .goPanicWrap => true
  | .plainGo => false

/-- The names of the spawned tasks that the server's joiner tracks, and
hence the tasks `Close`'s `s.wg.Wait()` waits for. -/
def joinedTasks (spawns : List (String × SpawnMethod)) : List String :=
  (spawns.filter fun t => registersWithJoiner t.2).map Prod.fst

/-- The configuration bits of `Config` that `New`/`startGRPC`/`startHTTP`
branch on: `Authn.Enable`, and whether the optional MLS service is
enabled (`MlsStore != nil && EnableMls`). -/
structure Config where
  authnEnable : Bool
  mlsEnabled : Bool
deriving DecidableEq, Repr

/-- Outcomes of the external calls made during construction, one Boolean
per fallible call site, in source order: `config.validate`,
`net.Listen` for the grpc listener, `messagev1.NewService`,
`messagev3.NewService`, `dialGRPC`, `RegisterMessageApiHandler`,
`RegisterMlsApiHandler`, and `net.Listen` for the gateway listener. -/
structure Env where
  validateOk : Bool
  grpcBindOk : Bool
  newMessageV1Ok : Bool
  newMessageV3Ok : Bool
  dialOk : Bool
  registerMessageHandlerOk : Bool
  registerMlsHandlerOk : Bool
  httpBindOk : Bool
deriving DecidableEq, Repr

/-- The nil-able fields of `Server` that `Close` inspects:
`grpcListener`/`httpListener` (set by a successful `net.Listen`, and
"open" until a `Close()` call on them — `New` itself never closes them),
and the `messagev1`/`messagev3` service fields (`messagev3Set` also
records that the MLS service was registered). -/
structure ServerState where
  grpcListenerOpen : Bool
  httpListenerOpen : Bool
  messagev1Set : Bool
  messagev3Set : Bool
deriving DecidableEq, Repr

/-- The server state `New` starts from: no listener bound, no service set. -/
def initialState : ServerState :=
  { grpcListenerOpen := false, httpListenerOpen := false
    messagev1Set := false, messagev3Set := false }

/-- Result of `New`/`startGRPC`/`startHTTP`: the error returned (with the
`errors.Wrap` context string; `none` on success), the resulting listener
and service state, the background computations spawned (in spawn order,
with their spawn method), and the interceptor chains assembled. -/
structure StartResult where
  err? : Option String
  state : ServerState
  spawns : List (String × SpawnMethod)
  unaryChain : List Interceptor
  streamChain : List Interceptor
deriving DecidableEq, Repr

/-- startGRPC (pkg/api/server.go): binds the grpc listener, assembles the
interceptor chains (prometheus, then telemetry, then — only when
`Authn.Enable` — the wallet authorizer, with the rate-limiter janitor
started by a bare `go` statement inside that same branch), creates and
registers the message service, conditionally creates and registers the
MLS service, and finally spawns the "grpc" serve loop through
`tracing.GoPanicWrap`. -/
def startGRPC (cfg : Config) (env : Env) (s : ServerState) : StartResult :=
  if !env.grpcBindOk then
    ⟨some "creating grpc listener", s, [], [], []⟩
  else
    let s := { s with grpcListenerOpen := true }
    let unary := [Interceptor.prometheus]
    let stream := [Interceptor.prometheus]
    let unary := unary ++ [Interceptor.telemetry]
    let stream := stream ++ [Interceptor.telemetry]
    let spawns :=
      if cfg.authnEnable then [("janitor", SpawnMethod.plainGo)] else []
    let unary :=
      if cfg.authnEnable then unary ++ [Interceptor.walletAuthorizer] else unary
    let stream :=
      if cfg.authnEnable then stream ++ [Interceptor.walletAuthorizer] else stream
    if !env.newMessageV1Ok then
      ⟨some "creating message service", s, spawns, unary, stream⟩
    else
      let s := { s with messagev1Set := true }
      if cfg.mlsEnabled && !env.newMessageV3Ok then
        ⟨some "creating mls service", s, spawns, unary, stream⟩
      else
        let s := if cfg.mlsEnabled then { s with messagev3Set := true } else s
        ⟨none, s, spawns ++ [("grpc", SpawnMethod.goPanicWrap)], unary, stream⟩

/-- startHTTP (pkg/api/server.go): dials the loopback grpc connection,
registers the gateway translation handlers, binds the gateway listener,
and spawns the "http" serve loop through `tracing.GoPanicWrap`.  Every
failure returns the wrapped error with the state unchanged up to that
point (in particular the grpc listener stays as it was). -/
def startHTTP (cfg : Config) (env : Env) (s : ServerState) : StartResult :=
  if !env.dialOk then
    ⟨some "dialing grpc server", s, [], [], []⟩
  else if !env.registerMessageHandlerOk then
    ⟨some "registering message handler", s, [], [], []⟩
  else if cfg.mlsEnabled && !env.registerMlsHandlerOk then
    ⟨some "registering mls handler", s, [], [], []⟩
  else if !env.httpBindOk then
    ⟨some "creating grpc-gateway listener", s, [], [], []⟩
  else
    ⟨none, { s with httpListenerOpen := true },
      [("http", SpawnMethod.goPanicWrap)], [], []⟩

/-- New (pkg/api/server.go): validates the configuration, runs
`startGRPC`, and on its success runs `startHTTP`; an error from either
is returned as-is, with no cleanup of whatever the earlier phase set up. -/
def New (cfg : Config) (env : Env) : StartResult :=
  if !env.validateOk then
    ⟨some "invalid configuration", initialState, [], [], []⟩
  else
    let g := startGRPC cfg env initialState
    match g.err? with
    | some e => ⟨some e, g.state, g.spawns, g.unaryChain, g.streamChain⟩
    | none =>
      let h := startHTTP cfg env g.state
      ⟨h.err?, h.state, g.spawns ++ h.spawns, g.unaryChain, g.streamChain⟩

/-- One step observable during `Server.Close`. -/
inductive CloseStep where
  | closeService (name : String)
  | closeHTTPListener
  | closeGRPCListener
  | logError (msg : String)
  | waitJoiner
deriving DecidableEq, Repr

/-- Server.Close (pkg/api/server.go): closes the messagev1 service when
set, then the http listener, then the grpc listener — logging, not
raising, any close error — and finally calls `s.wg.Wait()`.
`httpCloseErr`/`grpcCloseErr` are whether the respective listener's
`Close()` call returns an error. -/
def Close (s : ServerState) (httpCloseErr grpcCloseErr : Bool) :
    List CloseStep :=
  (if s.messagev1Set then [CloseStep.closeService "messagev1"] else []) ++
  (if s.httpListenerOpen then
    [CloseStep.closeHTTPListener] ++
      (if httpCloseErr then [CloseStep.logError "closing http listener"] else [])
   else []) ++
  (if s.grpcListenerOpen then
    [CloseStep.closeGRPCListener] ++
      (if grpcCloseErr then [CloseStep.logError "closing grpc listener"] else [])
   else []) ++
  [CloseStep.waitJoiner]

/-- Position of a `Close` step in the shutdown order of the source:
service close, then http listener (and its error log), then grpc
listener (and its error log), then the joiner wait. -/
def stepRank : CloseStep → Nat
  | .closeService _ => 0
  | .closeHTTPListener => 1
  | .logError m => if m = "closing http listener" then 1 else 2
  | .closeGRPCListener => 2
  | .waitJoiner => 3

/-- The environment in which every external call of construction succeeds. -/
def envAllOk : Env :=
  ⟨true, true, true, true, true, true, true, true⟩

/-- All external calls succeed except binding the grpc listener. -/
def envGrpcBindFail : Env :=
  ⟨true, false, true, true, true, true, true, true⟩

/-- All external calls succeed except dialing the loopback connection. -/
def envDialFail : Env :=
  ⟨true, true, true, true, false, true, true, true⟩

/-- All external calls succeed except binding the gateway listener. -/
def envHTTPBindFail : Env :=
  ⟨true, true, true, true, true, true, true, false⟩

/-- Go `strings.Join(elems, sep)`. -/
def stringsJoin (sep : String) : List String → String
  | [] => ""
  | [s] => s
  | s :: rest => s ++ sep ++ stringsJoin sep rest

/-- The fixed header allow-list of `preflightHandler` (pkg/api/server.go),
in source order. -/
def corsAllowedHeaders : List String :=
  ["Content-Type", "Accept", "Authorization", "X-Client-Version",
   "X-App-Version", "Baggage", "DNT", "Sec-CH-UA", "Sec-CH-UA-Mobile",
   "Sec-CH-UA-Platform", "Sentry-Trace", "User-Agent"]

/-- The fixed method allow-list of `preflightHandler` (pkg/api/server.go). -/
def corsAllowedMethods : List String :=
  ["GET", "HEAD", "POST", "PUT", "PATCH", "DELETE"]

/-- preflightHandler (pkg/api/server.go): the header Set calls it makes,
in order. -/
def preflightHandler : List (String × String) :=
  [("Access-Control-Allow-Headers", stringsJoin "," corsAllowedHeaders),
   ("Access-Control-Allow-Methods", stringsJoin "," corsAllowedMethods)]

/-- The parts of an inbound HTTP request that `allowCORS` inspects:
`r.Method` and `r.Header.Get("Access-Control-Request-Method")` (the empty
string when the header is absent). -/
structure HTTPRequest where
  method : String
  accessControlRequestMethod : String
deriving DecidableEq, Repr

/-- What the `allowCORS` wrapper did with a request: the response header
Set calls, in order, and whether the wrapped handler was invoked. -/
structure CORSOutcome where
  headers : List (String × String)
  wrappedHandlerCalled : Bool
deriving DecidableEq, Repr

/-- allowCORS (pkg/api/server.go): always sets
`Access-Control-Allow-Origin: *`; when the method is OPTIONS and the
`Access-Control-Request-Method` header is non-empty, answers via
`preflightHandler` and returns without calling the wrapped handler;
otherwise passes the request through. -/
def allowCORS (r : HTTPRequest) : CORSOutcome :=
  let origin := [("Access-Control-Allow-Origin", "*")]
  if r.method = "OPTIONS" ∧ r.accessControlRequestMethod ≠ "" then
    { headers := origin ++ preflightHandler, wrappedHandlerCalled := false }
  else
    { headers := origin, wrappedHandlerCalled := true }

/-- Claim C5: for every call to `Do`, the started span is finished
exactly once no matter how the action terminates; when the action panics
with an error value the span is finished tagged with that error,
otherwise it is finished untagged; the action's fault (or normal return)
re-emerges unchanged from `Do` to its caller. -/
theorem Do_finishes_span_once_and_propagates_fault
    (spanName : String) (action : GoResult Unit) :
    (Do spanName action).1 =
      [⟨match action with
        | GoResult.panicked (PanicValue.err e) => some e
        | _ => none⟩] ∧
    (Do spanName action).2 = action := by
  cases action with
  | ok a => cases a; exact ⟨rfl, rfl⟩
  | panicked r => cases r <;> exact ⟨rfl, rfl⟩

/-- Claim C6: for every streaming call whose handler returns, the error
argument passed to the telemetry recorder is nil regardless of the
handler's actual return value, and that return value is returned
unchanged to the transport. -/
theorem Stream_always_records_nil_error
    (res : Option GoError) (fm : List Char) :
    (TelemetryInterceptor.Stream (GoResult.ok res) fm).1 = [⟨fm, none⟩] ∧
    (TelemetryInterceptor.Stream (GoResult.ok res) fm).2 = GoResult.ok res :=
  ⟨rfl, rfl⟩

/-- Claim C2, counterexample: a unary handler that panics produces zero
record invocations, not exactly one — `record` runs after the handler,
not in a deferred block, so the panic skips it. -/
theorem Unary_panicking_handler_records_nothing :
    (TelemetryInterceptor.Unary (GoResult.panicked (PanicValue.other "boom"))
        (String.toList "/svc/method")).1.length = 0 ∧
    ¬ (TelemetryInterceptor.Unary (GoResult.panicked (PanicValue.other "boom"))
        (String.toList "/svc/method")).1.length = 1 := by
  decide

/-- Claim C2, amended: for every call whose handler returns — with
success or with an error — exactly one record invocation occurs (unary:
with the handler's error; streaming: with nil); when the handler panics,
no record invocation occurs and the panic propagates unchanged through
the interceptor. -/
theorem telemetry_records_once_when_handler_returns
    (resp : String) (errOut : Option GoError) (sres : Option GoError)
    (fm : List Char) (p : PanicValue) :
    (TelemetryInterceptor.Unary (GoResult.ok (resp, errOut)) fm).1 =
      [⟨fm, errOut⟩] ∧
    (TelemetryInterceptor.Unary (GoResult.ok (resp, errOut)) fm).2 =
      GoResult.ok (resp, errOut) ∧
    (TelemetryInterceptor.Stream (GoResult.ok sres) fm).1.length = 1 ∧
    (TelemetryInterceptor.Unary (GoResult.panicked p) fm).1 = [] ∧
    (TelemetryInterceptor.Unary (GoResult.panicked p) fm).2 =
      GoResult.panicked p ∧
    (TelemetryInterceptor.Stream (GoResult.panicked p) fm).1 = [] ∧
    (TelemetryInterceptor.Stream (GoResult.panicked p) fm).2 =
      GoResult.panicked p :=
  ⟨rfl, rfl, rfl, rfl, rfl, rfl, rfl⟩

/-- Claim C8: the full method name is split into service and method on
the first separator after one leading slash is removed; with no
separator present both components are the "unknown" sentinel, and the
operation is total. -/
theorem splitMethodName_first_separator (full : List Char) :
    splitMethodName full =
      if '/' ∈ trimPrefixSlash full then
        ((trimPrefixSlash full).takeWhile (fun c => c != '/'),
         ((trimPrefixSlash full).dropWhile (fun c => c != '/')).tail)
      else (String.toList "unknown", String.toList "unknown") := by
  have hsplit : splitMethodName full =
      match indexSlash (trimPrefixSlash full) with
      | some i =>
          ((trimPrefixSlash full).take i, (trimPrefixSlash full).drop (i + 1))
      | none => (String.toList "unknown", String.toList "unknown") := rfl
  rw [hsplit]
  cases h : indexSlash (trimPrefixSlash full) with
  | none => rw [if_neg ((indexSlash_eq_none_iff _).mp h)]
  | some i =>
    have hmem : '/' ∈ trimPrefixSlash full := by
      by_contra hn
      rw [(indexSlash_eq_none_iff _).mpr hn] at h
      cases h
    obtain ⟨h1, h2⟩ := indexSlash_eq_some_split _ i h
    rw [if_pos hmem]
    show ((trimPrefixSlash full).take i, (trimPrefixSlash full).drop (i + 1)) = _
    rw [h1, h2]

/-- Claim C9: from forwarding metadata `"203.0.113.5, 10.0.0.1"` the
recorder derives client IP exactly `"203.0.113.5"` (first comma-separated
entry, whitespace trimmed); with the forwarding header absent no
client-IP field is emitted. -/
theorem record_client_ip_spec :
    (record (String.toList "/svc/m")
        [String.toList "203.0.113.5, 10.0.0.1"] none).client_ip =
      some (String.toList "203.0.113.5") ∧
    (record (String.toList "/svc/m") [] none).client_ip = none := by
  decide

/-- Claim C1, counterexample: with authentication enabled, the
rate-limiter janitor is spawned by a bare `go` statement, not through
`GoPanicWrap`, so it is not registered with the server's joiner and not
every background task is spawned through the panic-isolating wrapper. -/
theorem janitor_spawned_outside_wrapper :
    ("janitor", SpawnMethod.plainGo) ∈ (New ⟨true, false⟩ envAllOk).spawns ∧
    "janitor" ∉ joinedTasks (New ⟨true, false⟩ envAllOk).spawns ∧
    ¬ ∀ t ∈ (New ⟨true, false⟩ envAllOk).spawns,
        t.2 = SpawnMethod.goPanicWrap := by
  decide

/-- Claim C1, amended: the grpc and http serve loops are spawned through
`GoPanicWrap` and are exactly the tasks registered with the server's
joiner (the ones `Close`'s wait covers); the rate-limiter janitor,
spawned only when authentication is enabled, is started with a bare `go`
statement and is exactly the spawned task the joiner does not track. -/
theorem serve_loops_wrapped_janitor_unjoined (authn mls : Bool) :
    (New ⟨authn, mls⟩ envAllOk).spawns =
      (if authn then [("janitor", SpawnMethod.plainGo)] else []) ++
        [("grpc", SpawnMethod.goPanicWrap), ("http", SpawnMethod.goPanicWrap)] ∧
    joinedTasks (New ⟨authn, mls⟩ envAllOk).spawns = ["grpc", "http"] ∧
    "janitor" ∉ joinedTasks (New ⟨authn, mls⟩ envAllOk).spawns ∧
    (New ⟨authn, mls⟩ envAllOk).spawns.filter
        (fun t => !(registersWithJoiner t.2)) =
      (if authn then [("janitor", SpawnMethod.plainGo)] else []) := by
  cases authn <;> cases mls <;> decide

/-- Claim C3, counterexample: when the gateway listener bind fails after
a successful grpc bind, `New` returns the error with the grpc listener
still open — nothing closes it. -/
theorem http_failure_leaves_grpc_listener_open :
    (New ⟨false, false⟩ envHTTPBindFail).err? =
      some "creating grpc-gateway listener" ∧
    (New ⟨false, false⟩ envHTTPBindFail).state.grpcListenerOpen = true := by
  decide

/-- Claim C3, amended: a grpc bind failure aborts construction with no
listener open; a failure anywhere in the HTTP phase (dialing the
loopback connection or binding the gateway listener) aborts construction
with the error, but leaves the already-bound grpc listener open — `New`
performs no cleanup of it. -/
theorem New_partial_listener_behavior (authn mls : Bool) :
    ((New ⟨authn, mls⟩ envGrpcBindFail).err? = some "creating grpc listener" ∧
     (New ⟨authn, mls⟩ envGrpcBindFail).state.grpcListenerOpen = false ∧
     (New ⟨authn, mls⟩ envGrpcBindFail).state.httpListenerOpen = false) ∧
    ((New ⟨authn, mls⟩ envDialFail).err? = some "dialing grpc server" ∧
     (New ⟨authn, mls⟩ envDialFail).state.grpcListenerOpen = true ∧
     (New ⟨authn, mls⟩ envDialFail).state.httpListenerOpen = false) ∧
    ((New ⟨authn, mls⟩ envHTTPBindFail).err? =
       some "creating grpc-gateway listener" ∧
     (New ⟨authn, mls⟩ envHTTPBindFail).state.grpcListenerOpen = true ∧
     (New ⟨authn, mls⟩ envHTTPBindFail).state.httpListenerOpen = false) := by
  cases authn <;> cases mls <;> decide

/-- Claim C4, counterexample: after a successful construction with the
MLS service enabled, that service is registered (`messagev3` is set) but
`Close` emits no close for it — only `messagev1` is closed. -/
theorem mls_service_never_closed :
    (New ⟨false, true⟩ envAllOk).state.messagev3Set = true ∧
    CloseStep.closeService "messagev3" ∉
      Close (New ⟨false, true⟩ envAllOk).state false false := by
  decide

/-- Claim C4, amended: `Close` proceeds in the fixed order — the primary
message service first (the MLS service, even when registered, is not
closed), then the HTTP listener, then the grpc listener, with close
errors logged and shutdown proceeding regardless — and the joiner wait
is always the final step. -/
theorem Close_fixed_order (s : ServerState) (httpCloseErr grpcCloseErr : Bool) :
    List.Pairwise (fun a b => stepRank a ≤ stepRank b)
      (Close s httpCloseErr grpcCloseErr) ∧
    (Close s httpCloseErr grpcCloseErr).getLast? = some CloseStep.waitJoiner ∧
    (CloseStep.closeService "messagev1" ∈ Close s httpCloseErr grpcCloseErr ↔
      s.messagev1Set = true) ∧
    (CloseStep.closeHTTPListener ∈ Close s httpCloseErr grpcCloseErr ↔
      s.httpListenerOpen = true) ∧
    (CloseStep.closeGRPCListener ∈ Close s httpCloseErr grpcCloseErr ↔
      s.grpcListenerOpen = true) ∧
    (CloseStep.logError "closing http listener" ∈
        Close s httpCloseErr grpcCloseErr ↔
      (httpCloseErr = true ∧ s.httpListenerOpen = true)) ∧
    (CloseStep.logError "closing grpc listener" ∈
        Close s httpCloseErr grpcCloseErr ↔
      (grpcCloseErr = true ∧ s.grpcListenerOpen = true)) ∧
    CloseStep.closeService "messagev3" ∉ Close s httpCloseErr grpcCloseErr := by
  obtain ⟨g, h, v1, v3⟩ := s
  cases g <;> cases h <;> cases v1 <;> cases v3 <;>
    cases httpCloseErr <;> cases grpcCloseErr <;> decide

/-- Claim C7: both interceptor chains are assembled in the fixed order
metrics (prometheus), then telemetry, then the rate-limit/authentication
(wallet authorizer) entry last before the business handler, and the
authorizer entry is present if and only if authentication is enabled. -/
theorem interceptor_chain_fixed_order (authn mls : Bool) :
    (New ⟨authn, mls⟩ envAllOk).unaryChain =
      [Interceptor.prometheus, Interceptor.telemetry] ++
        (if authn then [Interceptor.walletAuthorizer] else []) ∧
    (New ⟨authn, mls⟩ envAllOk).streamChain =
      (New ⟨authn, mls⟩ envAllOk).unaryChain ∧
    (Interceptor.walletAuthorizer ∈ (New ⟨authn, mls⟩ envAllOk).unaryChain ↔
      authn = true) ∧
    (Interceptor.walletAuthorizer ∈ (New ⟨authn, mls⟩ envAllOk).streamChain ↔
      authn = true) ∧
    (New ⟨authn, mls⟩ envAllOk).unaryChain.getLast? =
      some (if authn then Interceptor.walletAuthorizer
            else Interceptor.telemetry) := by
  cases authn <;> cases mls <;> decide

/-- Claim C10: `allowCORS` answers a request as a preflight — responding
with the fixed header and method allow-lists and not invoking the
wrapped handler — exactly when the method is OPTIONS and the
`Access-Control-Request-Method` header is non-empty; an OPTIONS request
without that header passes through to the wrapped handler; and
`Access-Control-Allow-Origin: *` is set on every response. -/
theorem allowCORS_preflight_spec (r : HTTPRequest) :
    ((allowCORS r).wrappedHandlerCalled = false ↔
      (r.method = "OPTIONS" ∧ r.accessControlRequestMethod ≠ "")) ∧
    ("Access-Control-Allow-Origin", "*") ∈ (allowCORS r).headers ∧
    (allowCORS r).headers =
      (if r.method = "OPTIONS" ∧ r.accessControlRequestMethod ≠ "" then
        [("Access-Control-Allow-Origin", "*"),
         ("Access-Control-Allow-Headers",
          "Content-Type,Accept,Authorization,X-Client-Version,X-App-Version,Baggage,DNT,Sec-CH-UA,Sec-CH-UA-Mobile,Sec-CH-UA-Platform,Sentry-Trace,User-Agent"),
         ("Access-Control-Allow-Methods", "GET,HEAD,POST,PUT,PATCH,DELETE")]
       else [("Access-Control-Allow-Origin", "*")]) := by
  by_cases hp : r.method = "OPTIONS" ∧ r.accessControlRequestMethod ≠ "" <;>
    simp [allowCORS, preflightHandler, hp, stringsJoin,
      corsAllowedHeaders, corsAllowedMethods]

end Xmtp
